import Mathlib

/-!
Verification of the N-body gravitational simulator (collision engine and
solar-system variant).

The embedding models the physics core: 3-component vectors over the reals
(the float type of the source is idealised as exact real arithmetic, and
glm length as the exact square root), bodies with position, velocity,
accumulated acceleration, radius, mass, fixed flag and trail, the pairwise
gravitational force accumulator, the semi-implicit Euler integrator with
its timestep clamp and throttled trail push, the impulse-based collision
resolver, and the per-frame driver loop with its substep subdivision.
Driver time arithmetic (timestep subdivision, the cast to int) is modelled
over the rationals, which the driver then feeds into the real-valued
integrator.

One deliberate idealisation: real division by zero yields 0 in Lean while
IEEE division yields inf or NaN; every theorem below either guards the
relevant branch by a hypothesis or concerns a code path where the divided
value is never written to body state.
-/

namespace PhysicsEngine

/-- A 3-component vector, modelling glm vec3 with real components. -/
@[ext]
structure Vec3 where
  x : ℝ
  y : ℝ
  z : ℝ

namespace Vec3

def add (u v : Vec3) : Vec3 := ⟨u.x + v.x, u.y + v.y, u.z + v.z⟩

def sub (u v : Vec3) : Vec3 := ⟨u.x - v.x, u.y - v.y, u.z - v.z⟩

def neg (v : Vec3) : Vec3 := ⟨-v.x, -v.y, -v.z⟩

/-- Scalar multiplication, modelling glm vec3 times float. -/
def smul (c : ℝ) (v : Vec3) : Vec3 := ⟨c * v.x, c * v.y, c * v.z⟩

/-- Componentwise division by a scalar, modelling glm vec3 divided by float. -/
noncomputable def divScalar (v : Vec3) (c : ℝ) : Vec3 := ⟨v.x / c, v.y / c, v.z / c⟩

instance : Add Vec3 := ⟨add⟩
instance : Sub Vec3 := ⟨sub⟩
instance : Neg Vec3 := ⟨neg⟩
instance : SMul ℝ Vec3 := ⟨smul⟩
instance : Zero Vec3 := ⟨⟨0, 0, 0⟩⟩

/-- glm dot product. -/
def dot (u v : Vec3) : ℝ := u.x * v.x + u.y * v.y + u.z * v.z

/-- glm length: the Euclidean norm. -/
noncomputable def length (v : Vec3) : ℝ := Real.sqrt (dot v v)

/-- glm normalize: the vector divided by its length. -/
noncomputable def normalize (v : Vec3) : Vec3 := (length v)⁻¹ • v

end Vec3


/-- Gravitational constant of the collision engine (source value 6.674f). -/
noncomputable def G : ℝ := 6.674

/-- Maximum timestep bound of the driver (source value 0.001f), over the
rationals since all driver timestep arithmetic is modelled exactly. -/
def MAX_TIMESTEP : ℚ := 1 / 1000

/-- Trail capacity of the collision engine. -/
def maxTrailLength : ℕ := 1000

/-- One simulated body of the collision engine. -/
@[ext]
structure Object3D where
  position : Vec3
  velocity : Vec3
  acceleration : Vec3
  color : Vec3
  radius : ℝ
  mass : ℝ
  fixed : Bool
  trail : List Vec3

/-- Push a position onto a trail, evicting the front entry when the capacity
is exceeded (push_back followed by erase of begin). -/
def pushTrail (cap : ℕ) (trail : List Vec3) (p : Vec3) : List Vec3 :=
  let t := trail ++ [p]
  if cap < t.length then t.drop 1 else t

/-- applyForce: a no-op on fixed bodies, otherwise acceleration += force / mass. -/
noncomputable def applyForce (o : Object3D) (force : Vec3) : Object3D :=
  if o.fixed then o
  else { o with acceleration := o.acceleration + force.divScalar o.mass }

/-- updatePosition of the collision engine: no-op for fixed bodies or while
paused; the timestep is clamped to MAX_TIMESTEP; velocity then position are
advanced; the shared static trail counter is incremented and every third
call pushes the new position onto the trail; acceleration is reset. -/
noncomputable def updatePosition (isPaused : Bool) (dt : ℚ) (o : Object3D)
    (trailCounter : ℕ) : Object3D × ℕ :=
  if o.fixed || isPaused then (o, trailCounter)
  else
    let actualDt : ℝ := ((min dt MAX_TIMESTEP : ℚ) : ℝ)
    let velocity := o.velocity + actualDt • o.acceleration
    let position := o.position + actualDt • velocity
    let counter := trailCounter + 1
    let trail := if counter % 3 = 0 then pushTrail maxTrailLength o.trail position
                 else o.trail
    ({ o with velocity := velocity, position := position, trail := trail,
              acceleration := 0 }, counter)

/-- calculateGravitationalForce: the distance is floored at twice the sum of
the radii, the force has magnitude G m₁ m₂ / d² directed along the unit
vector toward the other body, and is applied through applyForce. The source
self-interaction guard (address comparison with this) lives at the call
site, where the index pair i = j is skipped. -/
noncomputable def calculateGravitationalForce (self other : Object3D) : Object3D :=
  let direction := other.position - self.position
  let distance := Vec3.length direction
  let minDistance := (self.radius + other.radius) * 2
  let distance' := max distance minDistance
  let forceMagnitude := G * self.mass * other.mass / (distance' * distance')
  let force := forceMagnitude • Vec3.normalize direction
  applyForce self force

/-- CheckCollision: overlap test on the sum of radii. -/
noncomputable def CheckCollision (a b : Object3D) : Bool :=
  decide (Vec3.length (b.position - a.position) ≤ a.radius + b.radius)

/-- The collision normal of ResolveCollision: the normalised center delta,
or the fallback x axis when the centers are within 0.001 of coincident. -/
noncomputable def collisionNormal (a b : Object3D) : Vec3 :=
  let delta := b.position - a.position
  if 0.001 < Vec3.length delta then Vec3.normalize delta else ⟨1, 0, 0⟩

/-- ResolveCollision: when the bodies overlap, first separate them along the
collision normal (split inversely proportional to mass when both move, all
on the non-fixed one otherwise), then, unless the relative velocity along
the normal is separating, apply the restitution impulse to the non-fixed
bodies and damp their velocities by 0.98. -/
noncomputable def ResolveCollision (a b : Object3D) : Object3D × Object3D :=
  let delta := b.position - a.position
  let dist := Vec3.length delta
  let overlap := a.radius + b.radius - dist
  if 0 < overlap then
    let separation := overlap • collisionNormal a b
    let aPos :=
      if !a.fixed && !b.fixed then a.position - (b.mass / (a.mass + b.mass)) • separation
      else if !a.fixed && b.fixed then a.position - separation
      else a.position
    let bPos :=
      if !a.fixed && !b.fixed then b.position + (a.mass / (a.mass + b.mass)) • separation
      else if a.fixed && !b.fixed then b.position + separation
      else b.position
    let relativeVelocity := b.velocity - a.velocity
    let velAlongNormal := Vec3.dot relativeVelocity (collisionNormal a b)
    if 0 < velAlongNormal then
      ({ a with position := aPos }, { b with position := bPos })
    else
      let e : ℝ := 0.8
      let invMassA := if a.fixed then 0 else 1 / a.mass
      let invMassB := if b.fixed then 0 else 1 / b.mass
      let j := -(1 + e) * velAlongNormal / (invMassA + invMassB)
      let impulse := j • collisionNormal a b
      let aVel := if a.fixed then a.velocity
                  else (0.98 : ℝ) • (a.velocity - invMassA • impulse)
      let bVel := if b.fixed then b.velocity
                  else (0.98 : ℝ) • (b.velocity + invMassB • impulse)
      ({ a with position := aPos, velocity := aVel },
       { b with position := bPos, velocity := bVel })
  else (a, b)

/-- The C cast from a float value to int: truncation toward zero. -/
def cppTrunc (q : ℚ) : ℤ := if 0 ≤ q then ⌊q⌋ else -⌊-q⌋

/-- The substep count of one tick: max(1, (int)(dtEff / MAX_TIMESTEP)). -/
def substepCount (dtEff : ℚ) : ℤ := max 1 (cppTrunc (dtEff / MAX_TIMESTEP))

/-- The per-substep timestep handed to the integrator:
dtEff / physicsSteps (the initial min-clamped assignment of
physicsTimeStep in the source is dead, overwritten by this quotient). -/
def substepDt (dtEff : ℚ) : ℚ := dtEff / ((substepCount dtEff : ℤ) : ℚ)

/-- The timestep the integrator actually consumes for a non-fixed body:
updatePosition clamps its argument to MAX_TIMESTEP. -/
def effectiveDt (dt : ℚ) : ℚ := min dt MAX_TIMESTEP

/-- Total simulated time of one tick: substep count times the clamped
per-substep timestep. -/
def totalEffectiveDt (dtEff : ℚ) : ℚ :=
  ((substepCount dtEff : ℤ) : ℚ) * effectiveDt (substepDt dtEff)

/-- The acceleration reset at the top of each substep. -/
noncomputable def accelReset (objs : List Object3D) : List Object3D :=
  objs.map fun o => { o with acceleration := 0 }

/-- One step of the pairwise force loop: body i accumulates the pull of
body j; the i = j case is the source's address-equality self guard. -/
noncomputable def gravStep (objs : List Object3D) (i j : ℕ) : List Object3D :=
  if i = j then objs
  else
    match objs[i]?, objs[j]? with
    | some oi, some oj => objs.set i (calculateGravitationalForce oi oj)
    | _, _ => objs

/-- The quadratic force-accumulation pass over all ordered index pairs. -/
noncomputable def forcePass (objs : List Object3D) : List Object3D :=
  (List.range objs.length).foldl (fun acc i =>
    (List.range acc.length).foldl (fun acc2 j => gravStep acc2 i j) acc) objs

/-- The integration pass: updatePosition on each body in order, threading
the shared static trail counter. -/
noncomputable def updatePass (isPaused : Bool) (dt : ℚ) :
    List Object3D → ℕ → List Object3D × ℕ
  | [], c => ([], c)
  | o :: rest, c =>
    let p := updatePosition isPaused dt o c
    let q := updatePass isPaused dt rest p.2
    (p.1 :: q.1, q.2)

/-- One step of the collision loop on the index pair (i, j): test and, on
overlap, resolve, writing both bodies back. -/
noncomputable def collideStep (objs : List Object3D) (i j : ℕ) : List Object3D :=
  match objs[i]?, objs[j]? with
  | some oi, some oj =>
    if CheckCollision oi oj then
      let r := ResolveCollision oi oj
      (objs.set i r.1).set j r.2
    else objs
  | _, _ => objs

/-- The collision detection and resolution pass over all index pairs
i < j (the source's inner loop starts at j = i + 1). -/
noncomputable def collisionPass (objs : List Object3D) : List Object3D :=
  (List.range objs.length).foldl (fun acc i =>
    (List.range acc.length).foldl
      (fun acc2 j => if i < j then collideStep acc2 i j else acc2) acc) objs

/-- Mutable simulation state of the main loop: the body collection plus the
static trail counter shared by every updatePosition call. -/
structure SimState where
  objects : List Object3D
  trailCounter : ℕ

/-- One physics substep: acceleration reset, force accumulation,
integration, then collision detection and resolution. -/
noncomputable def substep (isPaused : Bool) (dt : ℚ) (s : SimState) : SimState :=
  let objs1 := forcePass (accelReset s.objects)
  let p := updatePass isPaused dt objs1 s.trailCounter
  ⟨collisionPass p.1, p.2⟩

/-- One tick of the driver: when unpaused, run physicsSteps substeps, each
with timestep dtEff / physicsSteps. -/
noncomputable def tick (isPaused : Bool) (simulationSpeed deltaTime : ℚ)
    (s : SimState) : SimState :=
  if isPaused then s
  else
    let dtEff := deltaTime * simulationSpeed
    (substep isPaused (substepDt dtEff))^[(substepCount dtEff).toNat] s

/-- External inputs of one tick: the pause flag, the speed multiplier and
the wall-clock delta time. -/
structure TickInput where
  isPaused : Bool
  simulationSpeed : ℚ
  deltaTime : ℚ

/-- Run a sequence of ticks. -/
noncomputable def runTicks (ts : List TickInput) (s : SimState) : SimState :=
  ts.foldl (fun acc t => tick t.isPaused t.simulationSpeed t.deltaTime acc) s

/-- The total momentum of a body collection: the vector sum of mass times
velocity. -/
noncomputable def momentum (objs : List Object3D) : Vec3 :=
  objs.foldl (fun acc o => acc + o.mass • o.velocity) 0

/-- No collision holds on a two-body collection when the overlap test on
the pair fails. -/
noncomputable def pairNoCollision : List Object3D → Prop
  | [x, y] => CheckCollision x y = false
  | _ => True

/-- Every trail in the collection is within the collision engine's cap. -/
def TrailOK (objs : List Object3D) : Prop :=
  ∀ o ∈ objs, o.trail.length ≤ maxTrailLength

/-- A list transformation leaves the position, velocity and fixedness of
every fixed entry unchanged, entry by entry. -/
@[reducible]
def PreservesFixed (f : List Object3D → List Object3D) : Prop :=
  ∀ (objs : List Object3D) (k : ℕ) (o : Object3D), objs[k]? = some o →
    o.fixed = true →
    ∃ q : Object3D, (f objs)[k]? = some q ∧ q.position = o.position ∧
      q.velocity = o.velocity ∧ q.fixed = true

/-- A state transformation leaves the position, velocity and fixedness of
every fixed body unchanged, entry by entry. -/
@[reducible]
def PreservesFixedS (f : SimState → SimState) : Prop :=
  ∀ (s : SimState) (k : ℕ) (o : Object3D), s.objects[k]? = some o →
    o.fixed = true →
    ∃ q : Object3D, (f s).objects[k]? = some q ∧ q.position = o.position ∧
      q.velocity = o.velocity ∧ q.fixed = true

namespace Solar

/-- Gravitational constant of the solar-system variant, in AU³ kg⁻¹ s⁻². -/
noncomputable def G : ℝ := 1.993560809749174e-44

/-- Trail capacity of the solar-system variant. -/
def maxTrailLength : ℕ := 500

/-- One simulated body of the solar-system variant: no fixed flag. -/
@[ext]
structure Object3D where
  position : Vec3
  velocity : Vec3
  acceleration : Vec3
  color : Vec3
  radius : ℝ
  mass : ℝ
  trail : List Vec3

/-- applyForce of the solar-system variant: acceleration += force / mass. -/
noncomputable def applyForce (o : Object3D) (force : Vec3) : Object3D :=
  { o with acceleration := o.acceleration + force.divScalar o.mass }

/-- updatePosition of the solar-system variant: no-op while paused; no
timestep clamp; the trail is pushed on every call, capped at 500. -/
noncomputable def updatePosition (isPaused : Bool) (dt : ℚ) (o : Object3D) :
    Object3D :=
  if isPaused then o
  else
    let velocity := o.velocity + ((dt : ℚ) : ℝ) • o.acceleration
    let position := o.position + ((dt : ℚ) : ℝ) • velocity
    let trail := pushTrail maxTrailLength o.trail position
    { o with velocity := velocity, position := position, trail := trail,
             acceleration := 0 }

/-- calculateGravitationalForce of the solar-system variant: the distance
floor is the plain sum of radii (no factor 2). -/
noncomputable def calculateGravitationalForce (self other : Object3D) : Object3D :=
  let direction := other.position - self.position
  let distance := Vec3.length direction
  let distance' := max distance (self.radius + other.radius)
  let forceMagnitude := G * self.mass * other.mass / (distance' * distance')
  let force := forceMagnitude • Vec3.normalize direction
  applyForce self force

/-- One step of the solar variant's pairwise force loop. -/
noncomputable def gravStep (objs : List Object3D) (i j : ℕ) : List Object3D :=
  if i = j then objs
  else
    match objs[i]?, objs[j]? with
    | some oi, some oj => objs.set i (calculateGravitationalForce oi oj)
    | _, _ => objs

/-- The solar variant's force-accumulation pass. -/
noncomputable def forcePass (objs : List Object3D) : List Object3D :=
  (List.range objs.length).foldl (fun acc i =>
    (List.range acc.length).foldl (fun acc2 j => gravStep acc2 i j) acc) objs

/-- One tick of the solar variant's main loop: when unpaused, one force
pass followed by one integration pass, no substepping, no collisions. -/
noncomputable def tick (isPaused : Bool) (simulationSpeed deltaTime : ℚ)
    (objs : List Object3D) : List Object3D :=
  if isPaused then objs
  else (forcePass objs).map (updatePosition isPaused (deltaTime * simulationSpeed))

/-- Run a sequence of solar-variant ticks. -/
noncomputable def runTicks (ts : List (Bool × ℚ × ℚ)) (objs : List Object3D) :
    List Object3D :=
  ts.foldl (fun acc t => tick t.1 t.2.1 t.2.2 acc) objs

/-- Every trail in the collection is within the solar variant's cap. -/
def TrailOK (objs : List Object3D) : Prop :=
  ∀ o ∈ objs, o.trail.length ≤ maxTrailLength

end Solar

/-- The Object3D constructor: acceleration zeroed, trail empty. -/
noncomputable def mkObject (pos vel : Vec3) (m : ℝ) (col : Vec3) (r : ℝ)
    (isFixed : Bool) : Object3D :=
  ⟨pos, vel, 0, col, r, m, isFixed, []⟩

/-- The central star of CreateObjects: fixed, mass 5000, radius 1.5. -/
noncomputable def sunBody : Object3D :=
  mkObject ⟨0, 0, 0⟩ ⟨0, 0, 0⟩ 5000 ⟨1, 0.9, 0.3⟩ 1.5 true

/-- A free unit-mass probe at the origin moving along x. -/
noncomputable def probeBody : Object3D :=
  mkObject ⟨0, 0, 0⟩ ⟨1, 0, 0⟩ 1 ⟨1, 1, 1⟩ (1/2) false

/-- A free resting unit body at the origin. -/
noncomputable def freeBodyA : Object3D :=
  mkObject ⟨0, 0, 0⟩ ⟨0, 0, 0⟩ 1 ⟨1, 1, 1⟩ 1 false

/-- A free resting unit body ten units along x. -/
noncomputable def freeBodyB : Object3D :=
  mkObject ⟨10, 0, 0⟩ ⟨0, 0, 0⟩ 1 ⟨1, 1, 1⟩ 1 false

/-- A free resting unit body one unit along x (overlapping freeBodyA). -/
noncomputable def overlapB : Object3D :=
  mkObject ⟨1, 0, 0⟩ ⟨0, 0, 0⟩ 1 ⟨1, 1, 1⟩ 1 false

/-- An overlapping pair already separating along the collision normal. -/
noncomputable def sepA : Object3D :=
  mkObject ⟨0, 0, 0⟩ ⟨-1, 0, 0⟩ 1 ⟨1, 1, 1⟩ 1 false

/-- Partner of sepA, moving away along x. -/
noncomputable def sepB : Object3D :=
  mkObject ⟨1, 0, 0⟩ ⟨1, 0, 0⟩ 1 ⟨1, 1, 1⟩ 1 false

/-- An overlapping grazing body: velocity orthogonal to the normal. -/
noncomputable def grazeA : Object3D :=
  mkObject ⟨0, 0, 0⟩ ⟨0, 1, 0⟩ 1 ⟨1, 1, 1⟩ 1 false

/-- Partner of grazeA, same normal velocity component (zero closing speed). -/
noncomputable def grazeB : Object3D :=
  mkObject ⟨1, 0, 0⟩ ⟨0, 2, 0⟩ 1 ⟨1, 1, 1⟩ 1 false

/-- A fixed overlapping body at the origin. -/
noncomputable def fixedA : Object3D :=
  mkObject ⟨0, 0, 0⟩ ⟨0, 0, 0⟩ 5000 ⟨1, 1, 1⟩ 1 true

/-- A fixed body overlapping fixedA. -/
noncomputable def fixedB : Object3D :=
  mkObject ⟨1, 0, 0⟩ ⟨0, 0, 0⟩ 5000 ⟨1, 1, 1⟩ 1 true

/-- A solar-variant body resting at the origin. -/
noncomputable def solarBody : Solar.Object3D :=
  ⟨⟨0, 0, 0⟩, ⟨0, 0, 0⟩, 0, ⟨1, 1, 1⟩, 1, 1, []⟩

namespace Vec3Lemmas

open Vec3

@[simp] theorem add_x (u v : Vec3) : (u + v).x = u.x + v.x := rfl
@[simp] theorem add_y (u v : Vec3) : (u + v).y = u.y + v.y := rfl
@[simp] theorem add_z (u v : Vec3) : (u + v).z = u.z + v.z := rfl
@[simp] theorem sub_x (u v : Vec3) : (u - v).x = u.x - v.x := rfl
@[simp] theorem sub_y (u v : Vec3) : (u - v).y = u.y - v.y := rfl
@[simp] theorem sub_z (u v : Vec3) : (u - v).z = u.z - v.z := rfl
@[simp] theorem neg_x (v : Vec3) : (-v).x = -v.x := rfl
@[simp] theorem neg_y (v : Vec3) : (-v).y = -v.y := rfl
@[simp] theorem neg_z (v : Vec3) : (-v).z = -v.z := rfl
@[simp] theorem smul_x (c : ℝ) (v : Vec3) : (c • v).x = c * v.x := rfl
@[simp] theorem smul_y (c : ℝ) (v : Vec3) : (c • v).y = c * v.y := rfl
@[simp] theorem smul_z (c : ℝ) (v : Vec3) : (c • v).z = c * v.z := rfl
@[simp] theorem zero_x : (0 : Vec3).x = 0 := rfl
@[simp] theorem zero_y : (0 : Vec3).y = 0 := rfl
@[simp] theorem zero_z : (0 : Vec3).z = 0 := rfl
@[simp] theorem divScalar_x (v : Vec3) (c : ℝ) : (v.divScalar c).x = v.x / c := rfl
@[simp] theorem divScalar_y (v : Vec3) (c : ℝ) : (v.divScalar c).y = v.y / c := rfl
@[simp] theorem divScalar_z (v : Vec3) (c : ℝ) : (v.divScalar c).z = v.z / c := rfl

theorem length_nonneg (v : Vec3) : 0 ≤ length v := Real.sqrt_nonneg _

theorem length_neg (v : Vec3) : length (-v) = length v := by
  unfold length
  congr 1
  unfold dot
  simp only [neg_x, neg_y, neg_z]
  ring

theorem sub_comm_length (u v : Vec3) : length (u - v) = length (v - u) := by
  have h : u - v = -(v - u) := by ext <;> simp
  rw [h, length_neg]

theorem length_smul (c : ℝ) (v : Vec3) : length (c • v) = |c| * length v := by
  unfold length dot
  simp only [smul_x, smul_y, smul_z]
  have h : c * v.x * (c * v.x) + c * v.y * (c * v.y) + c * v.z * (c * v.z)
      = c ^ 2 * (v.x * v.x + v.y * v.y + v.z * v.z) := by ring
  rw [h, Real.sqrt_mul (sq_nonneg c), Real.sqrt_sq_eq_abs]

theorem dot_self_nonneg (v : Vec3) : 0 ≤ dot v v := by
  unfold dot
  nlinarith [mul_self_nonneg v.x, mul_self_nonneg v.y, mul_self_nonneg v.z]

theorem length_pos_of_ne_zero {v : Vec3} (h : v ≠ 0) : 0 < length v := by
  rw [length, Real.sqrt_pos]
  by_contra hle
  push_neg at hle
  unfold dot at hle
  have hx : v.x = 0 := by nlinarith [mul_self_nonneg v.x, mul_self_nonneg v.y, mul_self_nonneg v.z]
  have hy : v.y = 0 := by nlinarith [mul_self_nonneg v.x, mul_self_nonneg v.y, mul_self_nonneg v.z]
  have hz : v.z = 0 := by nlinarith [mul_self_nonneg v.x, mul_self_nonneg v.y, mul_self_nonneg v.z]
  exact h (by ext <;> simp [hx, hy, hz])

theorem normalize_neg (v : Vec3) : Vec3.normalize (-v) = -(Vec3.normalize v) := by
  unfold Vec3.normalize
  rw [length_neg]
  ext <;> simp

theorem length_normalize {v : Vec3} (h : v ≠ 0) : length (Vec3.normalize v) = 1 := by
  have hpos := length_pos_of_ne_zero h
  rw [Vec3.normalize, length_smul, abs_of_nonneg (by positivity),
    inv_mul_cancel₀ (ne_of_gt hpos)]

theorem smul_divScalar (c m : ℝ) (v : Vec3) : (c • v).divScalar m = (c / m) • v := by
  ext <;> simp
  all_goals ring

end Vec3Lemmas

open Vec3Lemmas

theorem applyForce_position (o : Object3D) (f : Vec3) :
    (applyForce o f).position = o.position := by
  unfold applyForce
  split <;> rfl

theorem applyForce_velocity (o : Object3D) (f : Vec3) :
    (applyForce o f).velocity = o.velocity := by
  unfold applyForce
  split <;> rfl

theorem applyForce_trail (o : Object3D) (f : Vec3) :
    (applyForce o f).trail = o.trail := by
  unfold applyForce
  split <;> rfl

theorem applyForce_fixed (o : Object3D) (f : Vec3) :
    (applyForce o f).fixed = o.fixed := by
  unfold applyForce
  split <;> rfl

theorem applyForce_mass (o : Object3D) (f : Vec3) :
    (applyForce o f).mass = o.mass := by
  unfold applyForce
  split <;> rfl

theorem applyForce_radius (o : Object3D) (f : Vec3) :
    (applyForce o f).radius = o.radius := by
  unfold applyForce
  split <;> rfl

theorem applyForce_of_fixed {o : Object3D} (f : Vec3) (h : o.fixed = true) :
    applyForce o f = o := by
  unfold applyForce
  rw [if_pos h]

theorem applyForce_of_free {o : Object3D} (f : Vec3) (h : o.fixed = false) :
    applyForce o f = { o with acceleration := o.acceleration + f.divScalar o.mass } := by
  unfold applyForce
  rw [h]
  rfl

theorem calcGrav_position (a b : Object3D) :
    (calculateGravitationalForce a b).position = a.position := by
  unfold calculateGravitationalForce
  exact applyForce_position _ _

theorem calcGrav_velocity (a b : Object3D) :
    (calculateGravitationalForce a b).velocity = a.velocity := by
  unfold calculateGravitationalForce
  exact applyForce_velocity _ _

theorem calcGrav_trail (a b : Object3D) :
    (calculateGravitationalForce a b).trail = a.trail := by
  unfold calculateGravitationalForce
  exact applyForce_trail _ _

theorem calcGrav_fixed (a b : Object3D) :
    (calculateGravitationalForce a b).fixed = a.fixed := by
  unfold calculateGravitationalForce
  exact applyForce_fixed _ _

theorem pushTrail_length_le {cap : ℕ} {t : List Vec3} (p : Vec3)
    (h : t.length ≤ cap) : (pushTrail cap t p).length ≤ cap := by
  unfold pushTrail
  dsimp only
  split
  · simpa using h
  · rename_i hle
    simp only [List.length_append, List.length_cons, List.length_nil, Nat.not_lt] at hle ⊢
    omega

theorem pushTrail_at_cap {cap : ℕ} {t : List Vec3} (p : Vec3) (hpos : 0 < cap)
    (h : t.length = cap) : pushTrail cap t p = t.drop 1 ++ [p] := by
  unfold pushTrail
  dsimp only
  rw [if_pos (by simp [h])]
  cases t with
  | nil => simp at h; omega
  | cons x ts => simp

theorem updatePosition_of_fixed {o : Object3D} (p : Bool) (dt : ℚ) (c : ℕ)
    (h : o.fixed = true) : updatePosition p dt o c = (o, c) := by
  unfold updatePosition
  rw [h]
  rfl

theorem updatePosition_fst_fixed (p : Bool) (dt : ℚ) (o : Object3D) (c : ℕ) :
    ((updatePosition p dt o c).1).fixed = o.fixed := by
  unfold updatePosition
  split <;> rfl

theorem updatePosition_trail_le {o : Object3D} (p : Bool) (dt : ℚ) (c : ℕ)
    (h : o.trail.length ≤ maxTrailLength) :
    ((updatePosition p dt o c).1).trail.length ≤ maxTrailLength := by
  unfold updatePosition
  split
  · exact h
  · dsimp only
    split
    · exact pushTrail_length_le _ h
    · exact h

theorem resolve_fst_position_of_fixed {a : Object3D} (b : Object3D)
    (h : a.fixed = true) : (ResolveCollision a b).1.position = a.position := by
  simp only [ResolveCollision]
  repeat' split
  all_goals simp_all

theorem resolve_fst_velocity_of_fixed {a : Object3D} (b : Object3D)
    (h : a.fixed = true) : (ResolveCollision a b).1.velocity = a.velocity := by
  simp only [ResolveCollision]
  repeat' split
  all_goals simp_all

theorem resolve_snd_position_of_fixed (a : Object3D) {b : Object3D}
    (h : b.fixed = true) : (ResolveCollision a b).2.position = b.position := by
  simp only [ResolveCollision]
  repeat' split
  all_goals simp_all

theorem resolve_snd_velocity_of_fixed (a : Object3D) {b : Object3D}
    (h : b.fixed = true) : (ResolveCollision a b).2.velocity = b.velocity := by
  simp only [ResolveCollision]
  repeat' split
  all_goals simp_all

theorem resolve_fst_trail (a b : Object3D) :
    (ResolveCollision a b).1.trail = a.trail := by
  simp only [ResolveCollision]
  repeat' split
  all_goals rfl

theorem resolve_snd_trail (a b : Object3D) :
    (ResolveCollision a b).2.trail = b.trail := by
  simp only [ResolveCollision]
  repeat' split
  all_goals rfl

theorem resolve_fst_fixed (a b : Object3D) :
    (ResolveCollision a b).1.fixed = a.fixed := by
  simp only [ResolveCollision]
  repeat' split
  all_goals rfl

theorem resolve_snd_fixed (a b : Object3D) :
    (ResolveCollision a b).2.fixed = b.fixed := by
  simp only [ResolveCollision]
  repeat' split
  all_goals rfl

theorem resolve_fst_acceleration (a b : Object3D) :
    (ResolveCollision a b).1.acceleration = a.acceleration := by
  simp only [ResolveCollision]
  repeat' split
  all_goals rfl

theorem resolve_snd_acceleration (a b : Object3D) :
    (ResolveCollision a b).2.acceleration = b.acceleration := by
  simp only [ResolveCollision]
  repeat' split
  all_goals rfl

theorem resolve_fst_color (a b : Object3D) :
    (ResolveCollision a b).1.color = a.color := by
  simp only [ResolveCollision]
  repeat' split
  all_goals rfl

theorem resolve_snd_color (a b : Object3D) :
    (ResolveCollision a b).2.color = b.color := by
  simp only [ResolveCollision]
  repeat' split
  all_goals rfl

theorem resolve_fst_radius (a b : Object3D) :
    (ResolveCollision a b).1.radius = a.radius := by
  simp only [ResolveCollision]
  repeat' split
  all_goals rfl

theorem resolve_snd_radius (a b : Object3D) :
    (ResolveCollision a b).2.radius = b.radius := by
  simp only [ResolveCollision]
  repeat' split
  all_goals rfl

theorem resolve_fst_mass (a b : Object3D) :
    (ResolveCollision a b).1.mass = a.mass := by
  simp only [ResolveCollision]
  repeat' split
  all_goals rfl

theorem resolve_snd_mass (a b : Object3D) :
    (ResolveCollision a b).2.mass = b.mass := by
  simp only [ResolveCollision]
  repeat' split
  all_goals rfl

theorem foldl_preserves {α β : Type} {P : α → Prop} {g : α → β → α}
    (hg : ∀ a b, P a → P (g a b)) :
    ∀ (bs : List β) (a : α), P a → P (bs.foldl g a) := by
  intro bs
  induction bs with
  | nil => intro a ha; exact ha
  | cons b bs ih => intro a ha; exact ih _ (hg a b ha)

theorem iterate_preserves {α : Type} {P : α → Prop} {f : α → α}
    (hf : ∀ a, P a → P (f a)) : ∀ (n : ℕ) (a : α), P a → P (f^[n] a) := by
  intro n
  induction n with
  | zero => intro a ha; simpa using ha
  | succ n ih =>
    intro a ha
    rw [Function.iterate_succ_apply]
    exact ih _ (hf a ha)

theorem PreservesFixed.comp {f g : List Object3D → List Object3D}
    (hf : PreservesFixed f) (hg : PreservesFixed g) :
    PreservesFixed fun l => g (f l) := by
  intro objs k o hk hfix
  obtain ⟨q, hq, hqp, hqv, hqf⟩ := hf objs k o hk hfix
  obtain ⟨r, hr, hrp, hrv, hrf⟩ := hg (f objs) k q hq hqf
  exact ⟨r, hr, hrp.trans hqp, hrv.trans hqv, hrf⟩

theorem preservesFixed_foldl {β : Type} {g : List Object3D → β → List Object3D}
    (hg : ∀ b, PreservesFixed fun l => g l b) :
    ∀ bs : List β, PreservesFixed fun l => bs.foldl g l := by
  intro bs
  induction bs with
  | nil => intro objs k o hk hfix; exact ⟨o, hk, rfl, rfl, hfix⟩
  | cons b bs ih =>
    intro objs k o hk hfix
    obtain ⟨q, hq, hqp, hqv, hqf⟩ := hg b objs k o hk hfix
    obtain ⟨r, hr, hrp, hrv, hrf⟩ := ih (g objs b) k q hq hqf
    exact ⟨r, by simpa using hr, hrp.trans hqp, hrv.trans hqv, hrf⟩

theorem accelReset_preservesFixed : PreservesFixed accelReset := by
  intro objs k o hk hfix
  refine ⟨{ o with acceleration := 0 }, ?_, rfl, rfl, hfix⟩
  unfold accelReset
  rw [List.getElem?_map, hk]
  rfl

theorem gravStep_preservesFixed (i j : ℕ) : PreservesFixed fun l => gravStep l i j := by
  intro objs k o hk hfix
  simp only [gravStep]
  by_cases hij : i = j
  · rw [if_pos hij]
    exact ⟨o, hk, rfl, rfl, hfix⟩
  · rw [if_neg hij]
    cases hoi : objs[i]? with
    | none => simp only [hoi]; exact ⟨o, hk, rfl, rfl, hfix⟩
    | some oi =>
      cases hoj : objs[j]? with
      | none => simp only [hoi, hoj]; exact ⟨o, hk, rfl, rfl, hfix⟩
      | some oj =>
        simp only [hoi, hoj]
        by_cases hki : k = i
        · subst hki
          have hoo : oi = o := by rw [hk] at hoi; exact (Option.some_inj.mp hoi).symm
          subst hoo
          have hlt : k < objs.length := (List.getElem?_eq_some_iff.mp hk).1
          refine ⟨calculateGravitationalForce oi oj, ?_, calcGrav_position _ _,
            calcGrav_velocity _ _, ?_⟩
          · exact List.getElem?_set_self hlt
          · rw [calcGrav_fixed]; exact hfix
        · refine ⟨o, ?_, rfl, rfl, hfix⟩
          rw [List.getElem?_set_ne (fun h => hki h.symm)]
          exact hk

theorem forcePass_preservesFixed : PreservesFixed forcePass := by
  intro objs k o hk hfix
  have inner : ∀ i : ℕ, PreservesFixed fun l =>
      (List.range l.length).foldl (fun acc2 j => gravStep acc2 i j) l := by
    intro i objs2 k2 o2 hk2 hfix2
    exact preservesFixed_foldl (fun j => gravStep_preservesFixed i j)
      (List.range objs2.length) objs2 k2 o2 hk2 hfix2
  unfold forcePass
  exact preservesFixed_foldl inner (List.range objs.length) objs k o hk hfix

theorem collideStep_preservesFixed (i j : ℕ) :
    PreservesFixed fun l => collideStep l i j := by
  intro objs k o hk hfix
  simp only [collideStep]
  cases hoi : objs[i]? with
  | none => simp only [hoi]; exact ⟨o, hk, rfl, rfl, hfix⟩
  | some oi =>
    cases hoj : objs[j]? with
    | none => simp only [hoi, hoj]; exact ⟨o, hk, rfl, rfl, hfix⟩
    | some oj =>
      simp only [hoi, hoj]
      split
      · by_cases hkj : k = j
        · subst hkj
          have hoo : oj = o := by rw [hk] at hoj; exact (Option.some_inj.mp hoj).symm
          subst hoo
          have hlt : k < objs.length := (List.getElem?_eq_some_iff.mp hk).1
          refine ⟨(ResolveCollision oi oj).2, ?_,
            resolve_snd_position_of_fixed _ hfix, resolve_snd_velocity_of_fixed _ hfix, ?_⟩
          · exact List.getElem?_set_self (by simpa using hlt)
          · rw [resolve_snd_fixed]; exact hfix
        · rw [List.getElem?_set_ne (fun h => hkj h.symm)]
          by_cases hki : k = i
          · subst hki
            have hoo : oi = o := by rw [hk] at hoi; exact (Option.some_inj.mp hoi).symm
            subst hoo
            have hlt : k < objs.length := (List.getElem?_eq_some_iff.mp hk).1
            refine ⟨(ResolveCollision oi oj).1, ?_,
              resolve_fst_position_of_fixed _ hfix, resolve_fst_velocity_of_fixed _ hfix, ?_⟩
            · exact List.getElem?_set_self hlt
            · rw [resolve_fst_fixed]; exact hfix
          · refine ⟨o, ?_, rfl, rfl, hfix⟩
            rw [List.getElem?_set_ne (fun h => hki h.symm)]
            exact hk
      · exact ⟨o, hk, rfl, rfl, hfix⟩

theorem collisionPass_preservesFixed : PreservesFixed collisionPass := by
  intro objs k o hk hfix
  have inner : ∀ i : ℕ, PreservesFixed fun l =>
      (List.range l.length).foldl
        (fun acc2 j => if i < j then collideStep acc2 i j else acc2) l := by
    intro i objs2 k2 o2 hk2 hfix2
    refine preservesFixed_foldl (fun j => ?_) (List.range objs2.length) objs2 k2 o2 hk2 hfix2
    by_cases hij : i < j
    · simp only [if_pos hij]
      exact collideStep_preservesFixed i j
    · simp only [if_neg hij]
      intro objs3 k3 o3 hk3 hfix3
      exact ⟨o3, hk3, rfl, rfl, hfix3⟩
  unfold collisionPass
  exact preservesFixed_foldl inner (List.range objs.length) objs k o hk hfix

theorem updatePass_fixed_entry (p : Bool) (dt : ℚ) :
    ∀ (objs : List Object3D) (c k : ℕ) (o : Object3D), objs[k]? = some o →
      o.fixed = true → ((updatePass p dt objs c).1)[k]? = some o := by
  intro objs
  induction objs with
  | nil => intro c k o hk; simp at hk
  | cons a rest ih =>
    intro c k o hk hfix
    cases k with
    | zero =>
      have ha : a = o := by simpa using hk
      subst ha
      unfold updatePass
      simp only [updatePosition_of_fixed p dt c hfix]
      simp
    | succ k =>
      have hk' : rest[k]? = some o := by simpa using hk
      unfold updatePass
      simpa using ih _ k o hk' hfix

theorem substep_preservesFixedS (p : Bool) (dt : ℚ) : PreservesFixedS (substep p dt) := by
  intro s k o hk hfix
  obtain ⟨q, hq, hqp, hqv, hqf⟩ :=
    (accelReset_preservesFixed.comp forcePass_preservesFixed) s.objects k o hk hfix
  have hup := updatePass_fixed_entry p dt (forcePass (accelReset s.objects))
    s.trailCounter k q hq hqf
  obtain ⟨r, hr, hrp, hrv, hrf⟩ := collisionPass_preservesFixed _ k q hup hqf
  exact ⟨r, hr, hrp.trans hqp, hrv.trans hqv, hrf⟩

theorem preservesFixedS_iterate {f : SimState → SimState} (hf : PreservesFixedS f) :
    ∀ n : ℕ, PreservesFixedS f^[n] := by
  intro n
  induction n with
  | zero => intro s k o hk hfix; exact ⟨o, by simpa using hk, rfl, rfl, hfix⟩
  | succ n ih =>
    intro s k o hk hfix
    obtain ⟨q, hq, hqp, hqv, hqf⟩ := hf s k o hk hfix
    obtain ⟨r, hr, hrp, hrv, hrf⟩ := ih (f s) k q hq hqf
    refine ⟨r, ?_, hrp.trans hqp, hrv.trans hqv, hrf⟩
    rw [Function.iterate_succ_apply]
    exact hr

theorem tick_preservesFixedS (p : Bool) (speed dts : ℚ) :
    PreservesFixedS (tick p speed dts) := by
  intro s k o hk hfix
  unfold tick
  split
  · exact ⟨o, hk, rfl, rfl, hfix⟩
  · exact preservesFixedS_iterate (substep_preservesFixedS p _) _ s k o hk hfix

theorem runTicks_preservesFixedS (ts : List TickInput) :
    PreservesFixedS (runTicks ts) := by
  induction ts with
  | nil => intro s k o hk hfix; exact ⟨o, hk, rfl, rfl, hfix⟩
  | cons t ts ih =>
    intro s k o hk hfix
    obtain ⟨q, hq, hqp, hqv, hqf⟩ :=
      tick_preservesFixedS t.isPaused t.simulationSpeed t.deltaTime s k o hk hfix
    obtain ⟨r, hr, hrp, hrv, hrf⟩ := ih _ k q hq hqf
    refine ⟨r, ?_, hrp.trans hqp, hrv.trans hqv, hrf⟩
    simpa [runTicks] using hr

theorem trailOK_of_set {objs : List Object3D} {i : ℕ} {o : Object3D}
    (h : TrailOK objs) (ho : o.trail.length ≤ maxTrailLength) :
    TrailOK (objs.set i o) := by
  intro x hx
  rcases List.mem_or_eq_of_mem_set hx with hmem | rfl
  · exact h x hmem
  · exact ho

theorem accelReset_trailOK {objs : List Object3D} (h : TrailOK objs) :
    TrailOK (accelReset objs) := by
  intro x hx
  unfold accelReset at hx
  rcases List.mem_map.mp hx with ⟨o, ho, rfl⟩
  exact h o ho

theorem gravStep_trailOK {objs : List Object3D} (i j : ℕ) (h : TrailOK objs) :
    TrailOK (gravStep objs i j) := by
  unfold gravStep
  split
  · exact h
  · split
    · rename_i oi oj hoi hoj
      refine trailOK_of_set h ?_
      rw [calcGrav_trail]
      exact h oi (List.getElem?_mem hoi)
    · exact h

theorem collideStep_trailOK {objs : List Object3D} (i j : ℕ) (h : TrailOK objs) :
    TrailOK (collideStep objs i j) := by
  unfold collideStep
  split
  · rename_i oi oj hoi hoj
    split
    · refine trailOK_of_set (trailOK_of_set h ?_) ?_
      · rw [resolve_fst_trail]
        exact h oi (List.getElem?_mem hoi)
      · rw [resolve_snd_trail]
        exact h oj (List.getElem?_mem hoj)
    · exact h
  · exact h

theorem forcePass_trailOK {objs : List Object3D} (h : TrailOK objs) :
    TrailOK (forcePass objs) := by
  unfold forcePass
  refine foldl_preserves ?_ _ _ h
  intro acc i hacc
  exact foldl_preserves (fun acc2 j h2 => gravStep_trailOK i j h2) _ _ hacc

theorem collisionPass_trailOK {objs : List Object3D} (h : TrailOK objs) :
    TrailOK (collisionPass objs) := by
  unfold collisionPass
  refine foldl_preserves ?_ _ _ h
  intro acc i hacc
  refine foldl_preserves ?_ _ _ hacc
  intro acc2 j h2
  by_cases hij : i < j
  · simpa [hij] using collideStep_trailOK i j h2
  · simpa [hij] using h2

theorem updatePass_trailOK (p : Bool) (dt : ℚ) :
    ∀ (objs : List Object3D) (c : ℕ), TrailOK objs →
      TrailOK (updatePass p dt objs c).1 := by
  intro objs
  induction objs with
  | nil => intro c h x hx; simp [updatePass] at hx
  | cons a rest ih =>
    intro c h x hx
    unfold updatePass at hx
    rcases List.mem_cons.mp hx with rfl | hx'
    · exact updatePosition_trail_le p dt c (h a (List.mem_cons_self a rest))
    · exact ih _ (fun o ho => h o (List.mem_cons_of_mem a ho)) x hx'

theorem substep_trailOK (p : Bool) (dt : ℚ) {s : SimState}
    (h : TrailOK s.objects) : TrailOK (substep p dt s).objects := by
  unfold substep
  exact collisionPass_trailOK
    (updatePass_trailOK p dt _ _ (forcePass_trailOK (accelReset_trailOK h)))

theorem tick_trailOK (p : Bool) (speed dts : ℚ) {s : SimState}
    (h : TrailOK s.objects) : TrailOK (tick p speed dts s).objects := by
  unfold tick
  split
  · exact h
  · refine @iterate_preserves SimState (fun st => TrailOK st.objects) _ ?_ _ s h
    intro s2 hs2
    exact substep_trailOK p _ hs2

theorem runTicks_trailOK (ts : List TickInput) {s : SimState}
    (h : TrailOK s.objects) : TrailOK (runTicks ts s).objects := by
  unfold runTicks
  refine @foldl_preserves SimState TickInput (fun st => TrailOK st.objects) _ ?_ ts s h
  intro s2 t hs2
  exact tick_trailOK t.isPaused t.simulationSpeed t.deltaTime hs2

namespace Solar

theorem solar_applyForce_trail (o : Object3D) (f : Vec3) :
    (applyForce o f).trail = o.trail := rfl

theorem solar_calcGrav_trail (a b : Object3D) :
    (calculateGravitationalForce a b).trail = a.trail := rfl

theorem solar_updatePosition_trail_le {o : Object3D} (p : Bool) (dt : ℚ)
    (h : o.trail.length ≤ maxTrailLength) :
    (updatePosition p dt o).trail.length ≤ maxTrailLength := by
  unfold updatePosition
  split
  · exact h
  · exact pushTrail_length_le _ h

theorem solar_gravStep_trailOK {objs : List Object3D} (i j : ℕ) (h : TrailOK objs)  :
    TrailOK (gravStep objs i j) := by
  unfold gravStep
  split
  · exact h
  · split
    · rename_i oi oj hoi hoj
      intro x hx
      rcases List.mem_or_eq_of_mem_set hx with hmem | rfl
      · exact h x hmem
      · rw [solar_calcGrav_trail]
        exact h oi (List.getElem?_mem hoi)
    · exact h

theorem solar_forcePass_trailOK {objs : List Object3D} (h : TrailOK objs) :
    TrailOK (forcePass objs) := by
  unfold forcePass
  refine foldl_preserves ?_ _ _ h
  intro acc i hacc
  exact foldl_preserves (fun acc2 j h2 => solar_gravStep_trailOK i j h2) _ _ hacc

theorem solar_tick_trailOK (p : Bool) (speed dts : ℚ) {objs : List Object3D}
    (h : TrailOK objs) : TrailOK (tick p speed dts objs) := by
  unfold tick
  split
  · exact h
  · intro x hx
    rcases List.mem_map.mp hx with ⟨o, ho, rfl⟩
    exact solar_updatePosition_trail_le _ _ (solar_forcePass_trailOK h o ho)

theorem solar_runTicks_trailOK (ts : List (Bool × ℚ × ℚ)) {objs : List Object3D}
    (h : TrailOK objs) : TrailOK (runTicks ts objs) := by
  unfold runTicks
  refine @foldl_preserves (List Object3D) (Bool × ℚ × ℚ) TrailOK _ ?_ ts objs h
  intro objs2 t h2
  exact solar_tick_trailOK t.1 t.2.1 t.2.2 h2

end Solar

/-- C2: a body with fixed = true never has its position or velocity mutated:
across any sequence of ticks, and also individually by applyForce, by
updatePosition, and by ResolveCollision with any partner on either side. -/
theorem C2_fixed_body_invariant :
    (∀ (ts : List TickInput) (s : SimState) (k : ℕ) (o : Object3D),
      s.objects[k]? = some o → o.fixed = true →
      ∃ q : Object3D, (runTicks ts s).objects[k]? = some q ∧
        q.position = o.position ∧ q.velocity = o.velocity ∧ q.fixed = true) ∧
    (∀ (o : Object3D) (f : Vec3), o.fixed = true → applyForce o f = o) ∧
    (∀ (p : Bool) (dt : ℚ) (o : Object3D) (c : ℕ), o.fixed = true →
      updatePosition p dt o c = (o, c)) ∧
    (∀ a b : Object3D, a.fixed = true →
      (ResolveCollision a b).1.position = a.position ∧
      (ResolveCollision a b).1.velocity = a.velocity) ∧
    (∀ a b : Object3D, b.fixed = true →
      (ResolveCollision a b).2.position = b.position ∧
      (ResolveCollision a b).2.velocity = b.velocity) :=
  ⟨fun ts s k o hk hf => runTicks_preservesFixedS ts s k o hk hf,
   fun _ f h => applyForce_of_fixed f h,
   fun p dt _ c h => updatePosition_of_fixed p dt c h,
   fun _ b h => ⟨resolve_fst_position_of_fixed b h, resolve_fst_velocity_of_fixed b h⟩,
   fun a _ h => ⟨resolve_snd_position_of_fixed a h, resolve_snd_velocity_of_fixed a h⟩⟩

/-- Witness for C2: the fixed central star keeps its position and velocity
over a three-substep tick. -/
theorem C2_fixed_body_invariant_witness :
    ((⟨[sunBody], 0⟩ : SimState).objects[0]? = some sunBody ∧ sunBody.fixed = true) ∧
    ∃ q : Object3D,
      (runTicks [⟨false, 1, 3/1000⟩] ⟨[sunBody], 0⟩).objects[0]? = some q ∧
      q.position = sunBody.position ∧ q.velocity = sunBody.velocity ∧ q.fixed = true :=
  ⟨⟨rfl, rfl⟩,
   C2_fixed_body_invariant.1 [⟨false, 1, 3/1000⟩] ⟨[sunBody], 0⟩ 0 sunBody rfl rfl⟩

/-- C6: after any number of ticks every trail stays within its configured
cap (1000 in the collision engine, 500 in the solar-system variant), and a
push at the cap evicts the oldest entry first. -/
theorem C6_trail_bound :
    (∀ (ts : List TickInput) (s : SimState), TrailOK s.objects →
      TrailOK (runTicks ts s).objects) ∧
    (∀ (t : List Vec3) (p : Vec3), t.length = maxTrailLength →
      pushTrail maxTrailLength t p = t.drop 1 ++ [p]) ∧
    (∀ (ts : List (Bool × ℚ × ℚ)) (objs : List Solar.Object3D),
      Solar.TrailOK objs → Solar.TrailOK (Solar.runTicks ts objs)) ∧
    (∀ (t : List Vec3) (p : Vec3), t.length = Solar.maxTrailLength →
      pushTrail Solar.maxTrailLength t p = t.drop 1 ++ [p]) :=
  ⟨fun ts _ h => runTicks_trailOK ts h,
   fun _ p h => pushTrail_at_cap p (by norm_num [maxTrailLength]) h,
   fun ts _ h => Solar.solar_runTicks_trailOK ts h,
   fun _ p h => pushTrail_at_cap p (by norm_num [Solar.maxTrailLength]) h⟩

/-- Witness for C6: a one-body state with an empty trail stays within the
cap over a tick, and a full 1000-entry trail evicts its head on push. -/
theorem C6_trail_bound_witness :
    (TrailOK [probeBody] ∧
      TrailOK (runTicks [⟨false, 1, 1/1000⟩] ⟨[probeBody], 0⟩).objects) ∧
    ((List.replicate 1000 (0 : Vec3)).length = maxTrailLength ∧
      pushTrail maxTrailLength (List.replicate 1000 (0 : Vec3)) 0 =
        (List.replicate 1000 (0 : Vec3)).drop 1 ++ [0]) := by
  have h0 : TrailOK [probeBody] := by
    intro o ho
    rcases List.mem_singleton.mp ho with rfl
    simp [probeBody, mkObject, maxTrailLength]
  have hlen : (List.replicate 1000 (0 : Vec3)).length = maxTrailLength := by
    rw [List.length_replicate, maxTrailLength]
  exact ⟨⟨h0, C6_trail_bound.1 [⟨false, 1, 1/1000⟩] ⟨[probeBody], 0⟩ h0⟩,
    ⟨hlen, C6_trail_bound.2.1 (List.replicate 1000 (0 : Vec3)) 0 hlen⟩⟩

/-- C1 counterexample: at requested dt = 0.0015 the driver computes
max(1, (int)(1.5)) = 1 substep — not ceil(1.5) = 2 — and the integrator's
min clamp consumes only 0.001 of simulated time, not the requested 0.0015. -/
theorem C1_substep_count_cex :
    substepCount (3/2000) = 1 ∧ ⌈(3/2000 : ℚ) / MAX_TIMESTEP⌉ = 2 ∧
    totalEffectiveDt (3/2000) = 1/1000 ∧ (1/1000 : ℚ) ≠ 3/2000 := by
  have hdiv : (3/2000 : ℚ) / MAX_TIMESTEP = 3/2 := by norm_num [MAX_TIMESTEP]
  have hfl : ⌊(3/2 : ℚ)⌋ = 1 := by
    rw [Int.floor_eq_iff]
    norm_num
  have hsc : substepCount (3/2000) = 1 := by
    unfold substepCount cppTrunc
    rw [hdiv, if_pos (by norm_num : (0 : ℚ) ≤ 3/2), hfl]
    simp
  refine ⟨hsc, ?_, ?_, by norm_num⟩
  · rw [hdiv, Int.ceil_eq_iff]
    norm_num
  · unfold totalEffectiveDt effectiveDt substepDt
    rw [hsc]
    rw [show ((1 : ℤ) : ℚ) = 1 by norm_num, div_one, one_mul]
    rw [min_eq_right (by norm_num [MAX_TIMESTEP] : MAX_TIMESTEP ≤ (3/2000 : ℚ))]
    norm_num [MAX_TIMESTEP]

/-- C1 amended: for dt > 0 the substep count is max(1, trunc(dt / dt_max))
(a floor, not a ceiling), each substep is handed dt / count, the integrator
consumes min(dt / count, dt_max) per substep, and the total simulated time
is min(dt, count * dt_max) — equal to the requested dt exactly when
dt ≤ count * dt_max, and strictly smaller otherwise. -/
theorem C1_substep_time (dt : ℚ) (h : 0 < dt) :
    substepCount dt = max 1 ⌊dt / MAX_TIMESTEP⌋ ∧
    substepDt dt = dt / ((substepCount dt : ℤ) : ℚ) ∧
    totalEffectiveDt dt = min dt (((substepCount dt : ℤ) : ℚ) * MAX_TIMESTEP) ∧
    (totalEffectiveDt dt = dt ↔ dt ≤ ((substepCount dt : ℤ) : ℚ) * MAX_TIMESTEP) := by
  have hM : (0 : ℚ) < MAX_TIMESTEP := by norm_num [MAX_TIMESTEP]
  have hq : 0 ≤ dt / MAX_TIMESTEP := le_of_lt (div_pos h hM)
  have h1 : substepCount dt = max 1 ⌊dt / MAX_TIMESTEP⌋ := by
    unfold substepCount cppTrunc
    rw [if_pos hq]
  have hn1 : (1 : ℤ) ≤ substepCount dt := le_max_left _ _
  have hnpos : (0 : ℚ) < ((substepCount dt : ℤ) : ℚ) := by
    exact_mod_cast lt_of_lt_of_le one_pos hn1
  have hne : ((substepCount dt : ℤ) : ℚ) ≠ 0 := ne_of_gt hnpos
  have h3 : totalEffectiveDt dt
      = min dt (((substepCount dt : ℤ) : ℚ) * MAX_TIMESTEP) := by
    unfold totalEffectiveDt effectiveDt substepDt
    rw [mul_min_of_nonneg _ _ (le_of_lt hnpos)]
    congr 1
    field_simp
  refine ⟨h1, rfl, h3, ?_⟩
  rw [h3]
  exact min_eq_left_iff
/-- Witness for C1 amended at dt = 0.0025: two substeps of 0.00125 each,
clamped to 0.001, totalling 0.002 < 0.0025. -/
theorem C1_substep_time_witness :
    0 < (5/2000 : ℚ) ∧
    (substepCount (5/2000) = max 1 ⌊(5/2000 : ℚ) / MAX_TIMESTEP⌋ ∧
     substepDt (5/2000) = (5/2000 : ℚ) / ((substepCount (5/2000) : ℤ) : ℚ) ∧
     totalEffectiveDt (5/2000)
       = min (5/2000 : ℚ) (((substepCount (5/2000) : ℤ) : ℚ) * MAX_TIMESTEP) ∧
     (totalEffectiveDt (5/2000) = 5/2000 ↔
       (5/2000 : ℚ) ≤ ((substepCount (5/2000) : ℤ) : ℚ) * MAX_TIMESTEP)) :=
  ⟨by norm_num, C1_substep_time (5/2000) (by norm_num)⟩

/-- C5 counterexample: a tick with requested dt = -1 is not a no-op with
zero substeps: the driver runs one substep and the integrator moves the
probe body backwards along its velocity. -/
theorem C5_nonpositive_dt_cex :
    substepCount ((-1 : ℚ) * 1) = 1 ∧
    (tick false 1 (-1) ⟨[probeBody], 0⟩).objects[0]?.map Object3D.position
      = some ⟨-1, 0, 0⟩ ∧
    probeBody.position = ⟨0, 0, 0⟩ ∧ ((⟨-1, 0, 0⟩ : Vec3) ≠ ⟨0, 0, 0⟩) := by
  have hq : ((-1 : ℚ) * 1) / MAX_TIMESTEP = -1000 := by norm_num [MAX_TIMESTEP]
  have hflr : ⌊(1000 : ℚ)⌋ = 1000 := by
    rw [show (1000 : ℚ) = ((1000 : ℤ) : ℚ) by norm_num, Int.floor_intCast]
  have hsc : substepCount ((-1 : ℚ) * 1) = 1 := by
    unfold substepCount cppTrunc
    rw [hq, if_neg (by norm_num), show -(-1000 : ℚ) = 1000 by norm_num, hflr]
    rw [max_eq_left (by norm_num : (-1000 : ℤ) ≤ 1)]
  have hsd : substepDt ((-1 : ℚ) * 1) = -1 := by
    unfold substepDt
    rw [hsc]
    norm_num
  refine ⟨hsc, ?_, rfl, by simp [Vec3.mk.injEq]⟩
  have htick : tick false 1 (-1) ⟨[probeBody], 0⟩
      = substep false (-1) ⟨[probeBody], 0⟩ := by
    simp only [tick, Bool.false_eq_true, if_false, hsc, hsd, Int.toNat_one,
      Function.iterate_one]
  rw [htick]
  have hmin : min (-1 : ℚ) MAX_TIMESTEP = -1 := by norm_num [MAX_TIMESTEP]
  simp only [substep, accelReset, forcePass, collisionPass, gravStep, updatePass,
    updatePosition, probeBody, mkObject, List.map_cons, List.map_nil,
    List.length_cons, List.length_nil, List.range_succ, List.range_zero,
    List.foldl_cons, List.foldl_nil, hmin]
  norm_num [Vec3.mk.injEq]
  have hr1 : List.range 1 = [0] := rfl
  simp only [hr1, List.foldl_cons, List.foldl_nil, lt_irrefl, if_false]
  refine ⟨_, rfl, ?_⟩
  ext <;> simp

/-- C5 amended: a requested dt ≤ 0 is not rejected and is not a zero-substep
no-op: the driver still runs exactly one substep, handing the integrator the
nonpositive dt itself, since the min clamp leaves it unchanged. -/
theorem C5_nonpositive_dt (speed dts : ℚ) (h : dts * speed ≤ 0) :
    substepCount (dts * speed) = 1 ∧
    (∀ s : SimState, tick false speed dts s = substep false (dts * speed) s) ∧
    effectiveDt (dts * speed) = dts * speed := by
  have hM : (0 : ℚ) < MAX_TIMESTEP := by norm_num [MAX_TIMESTEP]
  have hq : dts * speed / MAX_TIMESTEP ≤ 0 :=
    div_nonpos_of_nonpos_of_nonneg h (le_of_lt hM)
  have hsc : substepCount (dts * speed) = 1 := by
    unfold substepCount cppTrunc
    split_ifs with h0
    · have hz : dts * speed / MAX_TIMESTEP = 0 := le_antisymm hq h0
      rw [hz]
      simp
    · have h1 : (0 : ℚ) ≤ -(dts * speed / MAX_TIMESTEP) := by linarith
      have h2 : (0 : ℤ) ≤ ⌊-(dts * speed / MAX_TIMESTEP)⌋ := Int.floor_nonneg.mpr h1
      rw [max_eq_left (by omega)]
  have hsd : substepDt (dts * speed) = dts * speed := by
    unfold substepDt
    rw [hsc]
    norm_num
  refine ⟨hsc, fun s => ?_, min_eq_left (h.trans (le_of_lt hM))⟩
  simp only [tick, Bool.false_eq_true, if_false, hsc, hsd, Int.toNat_one,
    Function.iterate_one]

/-- Witness for C5 amended at dt = -1, speed = 1. -/
theorem C5_nonpositive_dt_witness :
    ((-1 : ℚ) * 1 ≤ 0) ∧
    (substepCount ((-1 : ℚ) * 1) = 1 ∧
     (∀ s : SimState, tick false 1 (-1) s = substep false ((-1 : ℚ) * 1) s) ∧
     effectiveDt ((-1 : ℚ) * 1) = (-1 : ℚ) * 1) :=
  ⟨by norm_num, C5_nonpositive_dt 1 (-1) (by norm_num)⟩

theorem vec_sub_eq_zero_iff (u v : Vec3) : u - v = 0 ↔ u = v := by
  constructor
  · intro h
    have hx := congrArg Vec3.x h
    have hy := congrArg Vec3.y h
    have hz := congrArg Vec3.z h
    simp at hx hy hz
    ext <;> simp [sub_eq_zero] at hx hy hz ⊢ <;> assumption
  · intro h
    rw [h]
    ext <;> simp

theorem vec_add_sub_cancel_left (a v : Vec3) : (a + v) - a = v := by
  ext <;> simp

theorem vec_zero_smul (v : Vec3) : (0 : ℝ) • v = 0 := by
  ext <;> simp

theorem vec_smul_zero (c : ℝ) : c • (0 : Vec3) = 0 := by
  ext <;> simp

theorem vec_sub_zero (v : Vec3) : v - 0 = v := by
  ext <;> simp

theorem vec_zero_add (v : Vec3) : 0 + v = v := by
  ext <;> simp

/-- Acceleration added by one calculateGravitationalForce call to a
non-fixed body. -/
theorem calcGrav_accel_of_free {x : Object3D} (y : Object3D) (h : x.fixed = false) :
    (calculateGravitationalForce x y).acceleration
      = x.acceleration +
        ((G * x.mass * y.mass /
          (max (Vec3.length (y.position - x.position)) ((x.radius + y.radius) * 2) *
           max (Vec3.length (y.position - x.position)) ((x.radius + y.radius) * 2))) •
          Vec3.normalize (y.position - x.position)).divScalar x.mass := by
  unfold calculateGravitationalForce
  rw [applyForce_of_free _ h]

theorem updatePosition_velocity_of_free {o : Object3D} (dt : ℚ) (c : ℕ)
    (h : o.fixed = false) :
    (updatePosition false dt o c).1.velocity
      = o.velocity + ((min dt MAX_TIMESTEP : ℚ) : ℝ) • o.acceleration := by
  unfold updatePosition
  rw [h]
  rfl

theorem updatePosition_mass (p : Bool) (dt : ℚ) (o : Object3D) (c : ℕ) :
    (updatePosition p dt o c).1.mass = o.mass := by
  unfold updatePosition
  split <;> rfl

theorem calcGrav_mass (a b : Object3D) :
    (calculateGravitationalForce a b).mass = a.mass := by
  unfold calculateGravitationalForce
  exact applyForce_mass _ _

/-- C4: one calculateGravitationalForce call on a non-fixed body i adds to
its acceleration the vector (G mᵢ mⱼ / d² / mᵢ) • unit(pⱼ - pᵢ), where d is
the Euclidean distance between the positions floored at (rᵢ + rⱼ) · 2; with
positive masses and distinct positions the added vector's Euclidean
magnitude is exactly G mᵢ mⱼ / d² / mᵢ. -/
theorem C4_gravitational_accel (i j : Object3D) (hfix : i.fixed = false)
    (hmi : 0 < i.mass) (hmj : 0 < j.mass) (hpos : j.position ≠ i.position) :
    (calculateGravitationalForce i j).acceleration
      = i.acceleration +
        (G * i.mass * j.mass /
          (max (Vec3.length (j.position - i.position)) ((i.radius + j.radius) * 2) *
           max (Vec3.length (j.position - i.position)) ((i.radius + j.radius) * 2)) /
          i.mass) • Vec3.normalize (j.position - i.position) ∧
    Vec3.length ((calculateGravitationalForce i j).acceleration - i.acceleration)
      = G * i.mass * j.mass /
          (max (Vec3.length (j.position - i.position)) ((i.radius + j.radius) * 2) *
           max (Vec3.length (j.position - i.position)) ((i.radius + j.radius) * 2)) /
          i.mass := by
  have heq := calcGrav_accel_of_free j hfix
  rw [smul_divScalar] at heq
  have hF : 0 ≤ G * i.mass * j.mass /
      (max (Vec3.length (j.position - i.position)) ((i.radius + j.radius) * 2) *
       max (Vec3.length (j.position - i.position)) ((i.radius + j.radius) * 2)) /
      i.mass := by
    have hG : (0 : ℝ) ≤ G := by norm_num [G]
    exact div_nonneg (div_nonneg (mul_nonneg (mul_nonneg hG hmi.le) hmj.le)
      (mul_self_nonneg _)) hmi.le
  have hne : j.position - i.position ≠ 0 := by
    rw [ne_eq, vec_sub_eq_zero_iff]
    exact hpos
  refine ⟨heq, ?_⟩
  rw [heq, vec_add_sub_cancel_left, length_smul, length_normalize hne,
    mul_one, abs_of_nonneg hF]

/-- Witness for C4: two free unit-mass bodies ten units apart. -/
theorem C4_gravitational_accel_witness :
    (freeBodyA.fixed = false ∧ 0 < freeBodyA.mass ∧ 0 < freeBodyB.mass ∧
      freeBodyB.position ≠ freeBodyA.position) ∧
    ((calculateGravitationalForce freeBodyA freeBodyB).acceleration
      = freeBodyA.acceleration +
        (G * freeBodyA.mass * freeBodyB.mass /
          (max (Vec3.length (freeBodyB.position - freeBodyA.position))
             ((freeBodyA.radius + freeBodyB.radius) * 2) *
           max (Vec3.length (freeBodyB.position - freeBodyA.position))
             ((freeBodyA.radius + freeBodyB.radius) * 2)) /
          freeBodyA.mass) •
            Vec3.normalize (freeBodyB.position - freeBodyA.position) ∧
     Vec3.length ((calculateGravitationalForce freeBodyA freeBodyB).acceleration
         - freeBodyA.acceleration)
      = G * freeBodyA.mass * freeBodyB.mass /
          (max (Vec3.length (freeBodyB.position - freeBodyA.position))
             ((freeBodyA.radius + freeBodyB.radius) * 2) *
           max (Vec3.length (freeBodyB.position - freeBodyA.position))
             ((freeBodyA.radius + freeBodyB.radius) * 2)) /
          freeBodyA.mass) := by
  have hm1 : (0 : ℝ) < freeBodyA.mass := by norm_num [freeBodyA, mkObject]
  have hm2 : (0 : ℝ) < freeBodyB.mass := by norm_num [freeBodyB, mkObject]
  have hp : freeBodyB.position ≠ freeBodyA.position := by
    simp [freeBodyA, freeBodyB, mkObject, Vec3.mk.injEq]
  exact ⟨⟨rfl, hm1, hm2, hp⟩,
    C4_gravitational_accel freeBodyA freeBodyB rfl hm1 hm2 hp⟩

theorem vec_add_zero (v : Vec3) : v + 0 = v := by
  ext <;> simp

/-- C8: for an overlapping pair already separating along the collision
normal, ResolveCollision leaves both velocities unchanged: the velocity
response returns before any impulse or damping is applied. -/
theorem C8_separating_skip (a b : Object3D)
    (hov : Vec3.length (b.position - a.position) < a.radius + b.radius)
    (hsep : 0 < Vec3.dot (b.velocity - a.velocity) (collisionNormal a b)) :
    (ResolveCollision a b).1.velocity = a.velocity ∧
    (ResolveCollision a b).2.velocity = b.velocity := by
  have hover : (0 : ℝ) < a.radius + b.radius - Vec3.length (b.position - a.position) := by
    linarith
  simp only [ResolveCollision, if_pos hover, if_pos hsep]
  exact ⟨trivial, trivial⟩

/-- Witness for C8: an overlapping pair moving apart along x keeps both
velocities. -/
theorem C8_separating_skip_witness :
    (Vec3.length (sepB.position - sepA.position) < sepA.radius + sepB.radius ∧
      0 < Vec3.dot (sepB.velocity - sepA.velocity) (collisionNormal sepA sepB)) ∧
    ((ResolveCollision sepA sepB).1.velocity = sepA.velocity ∧
     (ResolveCollision sepA sepB).2.velocity = sepB.velocity) := by
  have hδ : sepB.position - sepA.position = ⟨1, 0, 0⟩ := by
    ext <;> simp [sepA, sepB, mkObject]
  have hlen : Vec3.length (⟨1, 0, 0⟩ : Vec3) = 1 := by
    simp [Vec3.length, Vec3.dot, Real.sqrt_one]
  have hov : Vec3.length (sepB.position - sepA.position) < sepA.radius + sepB.radius := by
    rw [hδ, hlen]
    norm_num [sepA, sepB, mkObject]
  have hn : collisionNormal sepA sepB = ⟨1, 0, 0⟩ := by
    simp only [collisionNormal, hδ, hlen]
    rw [if_pos (by norm_num)]
    unfold Vec3.normalize
    rw [hlen]
    ext <;> simp
  have hsep : 0 < Vec3.dot (sepB.velocity - sepA.velocity) (collisionNormal sepA sepB) := by
    rw [hn]
    simp [Vec3.dot, sepA, sepB, mkObject]
  exact ⟨⟨hov, hsep⟩, C8_separating_skip sepA sepB hov hsep⟩

/-- C9: when both bodies of an overlapping pair are fixed, ResolveCollision
returns them entirely unchanged: the impulse divisor invMassA + invMassB is
zero on that path, but the quotient is never written to any body state, so
the division by zero is harmless at the public interface. -/
theorem C9_both_fixed_harmless (a b : Object3D) (hfa : a.fixed = true)
    (hfb : b.fixed = true)
    (hov : Vec3.length (b.position - a.position) < a.radius + b.radius) :
    ResolveCollision a b = (a, b) := by
  have hA : (ResolveCollision a b).1 = a :=
    Object3D.ext (resolve_fst_position_of_fixed b hfa)
      (resolve_fst_velocity_of_fixed b hfa) (resolve_fst_acceleration a b)
      (resolve_fst_color a b) (resolve_fst_radius a b) (resolve_fst_mass a b)
      (resolve_fst_fixed a b) (resolve_fst_trail a b)
  have hB : (ResolveCollision a b).2 = b :=
    Object3D.ext (resolve_snd_position_of_fixed a hfb)
      (resolve_snd_velocity_of_fixed a hfb) (resolve_snd_acceleration a b)
      (resolve_snd_color a b) (resolve_snd_radius a b) (resolve_snd_mass a b)
      (resolve_snd_fixed a b) (resolve_snd_trail a b)
  rw [Prod.ext_iff]
  exact ⟨hA, hB⟩

/-- Witness for C9: two overlapping fixed bodies are returned unchanged. -/
theorem C9_both_fixed_harmless_witness :
    (fixedA.fixed = true ∧ fixedB.fixed = true ∧
      Vec3.length (fixedB.position - fixedA.position) < fixedA.radius + fixedB.radius) ∧
    ResolveCollision fixedA fixedB = (fixedA, fixedB) := by
  have hδ : fixedB.position - fixedA.position = ⟨1, 0, 0⟩ := by
    ext <;> simp [fixedA, fixedB, mkObject]
  have hlen : Vec3.length (⟨1, 0, 0⟩ : Vec3) = 1 := by
    simp [Vec3.length, Vec3.dot, Real.sqrt_one]
  have hov : Vec3.length (fixedB.position - fixedA.position)
      < fixedA.radius + fixedB.radius := by
    rw [hδ, hlen]
    norm_num [fixedA, fixedB, mkObject]
  exact ⟨⟨rfl, rfl, hov⟩, C9_both_fixed_harmless fixedA fixedB rfl rfl hov⟩

/-- C10: at a grazing contact — zero relative velocity along the collision
normal — the impulse scalar is zero, yet ResolveCollision still multiplies
each non-fixed body's entire velocity vector by the damping factor 0.98. -/
theorem C10_grazing_damping (a b : Object3D)
    (hov : Vec3.length (b.position - a.position) < a.radius + b.radius)
    (hgraze : Vec3.dot (b.velocity - a.velocity) (collisionNormal a b) = 0) :
    (ResolveCollision a b).1.velocity
      = (if a.fixed then a.velocity else (0.98 : ℝ) • a.velocity) ∧
    (ResolveCollision a b).2.velocity
      = (if b.fixed then b.velocity else (0.98 : ℝ) • b.velocity) := by
  have hover : (0 : ℝ) < a.radius + b.radius - Vec3.length (b.position - a.position) := by
    linarith
  have hnot : ¬ (0 : ℝ) < Vec3.dot (b.velocity - a.velocity) (collisionNormal a b) := by
    rw [hgraze]
    exact lt_irrefl 0
  simp only [ResolveCollision, if_pos hover, hgraze, lt_self_iff_false, if_false,
    mul_zero, neg_zero, zero_div, vec_zero_smul, vec_smul_zero, vec_sub_zero,
    vec_add_zero]
  exact ⟨trivial, trivial⟩

/-- Witness for C10: an overlapping grazing pair with velocities orthogonal
to the normal has both velocities damped by 0.98. -/
theorem C10_grazing_damping_witness :
    (Vec3.length (grazeB.position - grazeA.position) < grazeA.radius + grazeB.radius ∧
      Vec3.dot (grazeB.velocity - grazeA.velocity) (collisionNormal grazeA grazeB) = 0) ∧
    ((ResolveCollision grazeA grazeB).1.velocity
       = (if grazeA.fixed then grazeA.velocity else (0.98 : ℝ) • grazeA.velocity) ∧
     (ResolveCollision grazeA grazeB).2.velocity
       = (if grazeB.fixed then grazeB.velocity else (0.98 : ℝ) • grazeB.velocity)) := by
  have hδ : grazeB.position - grazeA.position = ⟨1, 0, 0⟩ := by
    ext <;> simp [grazeA, grazeB, mkObject]
  have hlen : Vec3.length (⟨1, 0, 0⟩ : Vec3) = 1 := by
    simp [Vec3.length, Vec3.dot, Real.sqrt_one]
  have hov : Vec3.length (grazeB.position - grazeA.position)
      < grazeA.radius + grazeB.radius := by
    rw [hδ, hlen]
    norm_num [grazeA, grazeB, mkObject]
  have hn : collisionNormal grazeA grazeB = ⟨1, 0, 0⟩ := by
    simp only [collisionNormal, hδ, hlen]
    rw [if_pos (by norm_num)]
    unfold Vec3.normalize
    rw [hlen]
    ext <;> simp
  have hg : Vec3.dot (grazeB.velocity - grazeA.velocity)
      (collisionNormal grazeA grazeB) = 0 := by
    rw [hn]
    simp [Vec3.dot, grazeA, grazeB, mkObject]
  exact ⟨⟨hov, hg⟩, C10_grazing_damping grazeA grazeB hov hg⟩

/-- C7: one ResolveCollision call on an overlapping pair of non-fixed
bodies with a usable normal splits the overlap along the normal inversely
proportionally to mass — a moves by overlap · m_b/(m_a+m_b), b by
overlap · m_a/(m_a+m_b) — and leaves the centre distance exactly
r_a + r_b, hence at least r_a + r_b - ε for every ε ≥ 0. -/
theorem C7_depenetration (a b : Object3D)
    (hfa : a.fixed = false) (hfb : b.fixed = false)
    (hma : 0 < a.mass) (hmb : 0 < b.mass)
    (hd : (0.001 : ℝ) < Vec3.length (b.position - a.position))
    (hov : Vec3.length (b.position - a.position) < a.radius + b.radius) :
    (ResolveCollision a b).1.position
      = a.position - (b.mass / (a.mass + b.mass)) •
          ((a.radius + b.radius - Vec3.length (b.position - a.position)) •
            Vec3.normalize (b.position - a.position)) ∧
    (ResolveCollision a b).2.position
      = b.position + (a.mass / (a.mass + b.mass)) •
          ((a.radius + b.radius - Vec3.length (b.position - a.position)) •
            Vec3.normalize (b.position - a.position)) ∧
    Vec3.length ((ResolveCollision a b).2.position
        - (ResolveCollision a b).1.position)
      = a.radius + b.radius := by
  have hover : (0 : ℝ) < a.radius + b.radius - Vec3.length (b.position - a.position) := by
    linarith
  have hnormal : collisionNormal a b = Vec3.normalize (b.position - a.position) := by
    simp only [collisionNormal]
    rw [if_pos hd]
  have hpair : (ResolveCollision a b).1.position
      = a.position - (b.mass / (a.mass + b.mass)) •
          ((a.radius + b.radius - Vec3.length (b.position - a.position)) •
            Vec3.normalize (b.position - a.position)) ∧
      (ResolveCollision a b).2.position
      = b.position + (a.mass / (a.mass + b.mass)) •
          ((a.radius + b.radius - Vec3.length (b.position - a.position)) •
            Vec3.normalize (b.position - a.position)) := by
    simp only [ResolveCollision, hfa, hfb, Bool.not_false, Bool.and_self,
      if_pos hover, hnormal, if_true]
    split <;> exact ⟨rfl, rfl⟩
  obtain ⟨h1, h2⟩ := hpair
  refine ⟨h1, h2, ?_⟩
  rw [h1, h2]
  have hLpos : (0 : ℝ) < Vec3.length (b.position - a.position) :=
    lt_trans (by norm_num) hd
  have hLne : Vec3.length (b.position - a.position) ≠ 0 := ne_of_gt hLpos
  have htot : a.mass + b.mass ≠ 0 := ne_of_gt (add_pos hma hmb)
  have hr : (0 : ℝ) < a.radius + b.radius := lt_trans hLpos hov
  have hdelta :
      (b.position + (a.mass / (a.mass + b.mass)) •
          ((a.radius + b.radius - Vec3.length (b.position - a.position)) •
            Vec3.normalize (b.position - a.position)))
        - (a.position - (b.mass / (a.mass + b.mass)) •
          ((a.radius + b.radius - Vec3.length (b.position - a.position)) •
            Vec3.normalize (b.position - a.position)))
      = ((a.radius + b.radius) / Vec3.length (b.position - a.position)) •
          (b.position - a.position) := by
    unfold Vec3.normalize
    ext <;> (simp; field_simp; ring)
  rw [hdelta, length_smul, abs_of_nonneg (div_nonneg hr.le hLpos.le)]
  field_simp

/-- Witness for C7: two overlapping free unit bodies one unit apart end up
exactly two radii apart, each moved by half of the overlap. -/
theorem C7_depenetration_witness :
    (freeBodyA.fixed = false ∧ overlapB.fixed = false ∧
      0 < freeBodyA.mass ∧ 0 < overlapB.mass ∧
      (0.001 : ℝ) < Vec3.length (overlapB.position - freeBodyA.position) ∧
      Vec3.length (overlapB.position - freeBodyA.position)
        < freeBodyA.radius + overlapB.radius) ∧
    ((ResolveCollision freeBodyA overlapB).1.position
       = freeBodyA.position - (overlapB.mass / (freeBodyA.mass + overlapB.mass)) •
           ((freeBodyA.radius + overlapB.radius
               - Vec3.length (overlapB.position - freeBodyA.position)) •
             Vec3.normalize (overlapB.position - freeBodyA.position)) ∧
     (ResolveCollision freeBodyA overlapB).2.position
       = overlapB.position + (freeBodyA.mass / (freeBodyA.mass + overlapB.mass)) •
           ((freeBodyA.radius + overlapB.radius
               - Vec3.length (overlapB.position - freeBodyA.position)) •
             Vec3.normalize (overlapB.position - freeBodyA.position)) ∧
     Vec3.length ((ResolveCollision freeBodyA overlapB).2.position
         - (ResolveCollision freeBodyA overlapB).1.position)
       = freeBodyA.radius + overlapB.radius) := by
  have hm1 : (0 : ℝ) < freeBodyA.mass := by norm_num [freeBodyA, mkObject]
  have hm2 : (0 : ℝ) < overlapB.mass := by norm_num [overlapB, mkObject]
  have hδ : overlapB.position - freeBodyA.position = ⟨1, 0, 0⟩ := by
    ext <;> simp [freeBodyA, overlapB, mkObject]
  have hlen : Vec3.length (⟨1, 0, 0⟩ : Vec3) = 1 := by
    simp [Vec3.length, Vec3.dot, Real.sqrt_one]
  have hd : (0.001 : ℝ) < Vec3.length (overlapB.position - freeBodyA.position) := by
    rw [hδ, hlen]
    norm_num
  have hov : Vec3.length (overlapB.position - freeBodyA.position)
      < freeBodyA.radius + overlapB.radius := by
    rw [hδ, hlen]
    norm_num [freeBodyA, overlapB, mkObject]
  exact ⟨⟨rfl, rfl, hm1, hm2, hd, hov⟩,
    C7_depenetration freeBodyA overlapB rfl rfl hm1 hm2 hd hov⟩

theorem forcePass_pair (x y : Object3D) :
    forcePass [x, y] = [calculateGravitationalForce x y,
      calculateGravitationalForce y (calculateGravitationalForce x y)] := by
  rfl

theorem updatePass_pair (p : Bool) (dt : ℚ) (x y : Object3D) (c : ℕ) :
    (updatePass p dt [x, y] c).1
      = [(updatePosition p dt x c).1,
         (updatePosition p dt y (updatePosition p dt x c).2).1] := by
  rfl

theorem collisionPass_pair (x y : Object3D) (h : CheckCollision x y = false) :
    collisionPass [x, y] = [x, y] := by
  have hr : List.range 2 = [0, 1] := rfl
  simp only [collisionPass, List.length_cons, List.length_nil, hr,
    List.foldl_cons, List.foldl_nil]
  norm_num [collideStep, h]
  rw [hr]
  simp

theorem momentum_pair (u v : Object3D) :
    momentum [u, v] = u.mass • u.velocity + v.mass • v.velocity := by
  simp only [momentum, List.foldl_cons, List.foldl_nil, vec_zero_add]

theorem calcGrav_radius (a b : Object3D) :
    (calculateGravitationalForce a b).radius = a.radius := by
  unfold calculateGravitationalForce
  exact applyForce_radius _ _

/-- C3: for a two-body system with neither body fixed, nonzero masses and
distinct positions, a single-substep tick in which no collision fires —
force accumulation followed by integration — conserves the vector sum of
mass times velocity exactly. -/
theorem C3_momentum_conserved (a b : Object3D) (speed dts : ℚ) (c : ℕ)
    (hfa : a.fixed = false) (hfb : b.fixed = false)
    (hma : a.mass ≠ 0) (hmb : b.mass ≠ 0)
    (hpos : a.position ≠ b.position)
    (hone : substepCount (dts * speed) = 1)
    (hnc : pairNoCollision
      (updatePass false (substepDt (dts * speed))
        (forcePass (accelReset [a, b])) c).1) :
    momentum (tick false speed dts ⟨[a, b], c⟩).objects = momentum [a, b] := by
  have htick : tick false speed dts ⟨[a, b], c⟩
      = substep false (substepDt (dts * speed)) ⟨[a, b], c⟩ := by
    simp only [tick, Bool.false_eq_true, if_false, hone, Int.toNat_one,
      Function.iterate_one]
  rw [htick]
  have har : accelReset [a, b]
      = [{ a with acceleration := 0 }, { b with acceleration := 0 }] := rfl
  simp only [substep]
  rw [har, forcePass_pair, updatePass_pair]
  rw [har, forcePass_pair, updatePass_pair] at hnc
  have hnc' : CheckCollision
      (updatePosition false (substepDt (dts * speed))
        (calculateGravitationalForce { a with acceleration := 0 }
          { b with acceleration := 0 }) c).1
      (updatePosition false (substepDt (dts * speed))
        (calculateGravitationalForce { b with acceleration := 0 }
          (calculateGravitationalForce { a with acceleration := 0 }
            { b with acceleration := 0 }))
        (updatePosition false (substepDt (dts * speed))
          (calculateGravitationalForce { a with acceleration := 0 }
            { b with acceleration := 0 }) c).2).1 = false := hnc
  rw [collisionPass_pair _ _ hnc', momentum_pair, momentum_pair]
  have hAf : (calculateGravitationalForce { a with acceleration := 0 }
      { b with acceleration := 0 }).fixed = false := by
    rw [calcGrav_fixed]
    exact hfa
  have hBf : (calculateGravitationalForce { b with acceleration := 0 }
      (calculateGravitationalForce { a with acceleration := 0 }
        { b with acceleration := 0 })).fixed = false := by
    rw [calcGrav_fixed]
    exact hfb
  rw [updatePosition_velocity_of_free _ _ hAf, updatePosition_velocity_of_free _ _ hBf,
    updatePosition_mass, updatePosition_mass, calcGrav_mass, calcGrav_mass,
    calcGrav_velocity, calcGrav_velocity,
    calcGrav_accel_of_free _ (show ({ a with acceleration := 0 } : Object3D).fixed
      = false from hfa),
    calcGrav_accel_of_free _ (show ({ b with acceleration := 0 } : Object3D).fixed
      = false from hfb),
    calcGrav_position, calcGrav_mass, calcGrav_radius]
  dsimp only
  rw [vec_zero_add, vec_zero_add]
  have hneg : a.position - b.position = -(b.position - a.position) := by
    ext <;> simp
  have hlen : Vec3.length (a.position - b.position)
      = Vec3.length (b.position - a.position) := sub_comm_length _ _
  have hrad : b.radius + a.radius = a.radius + b.radius := add_comm _ _
  rw [hlen, hrad, hneg, normalize_neg]
  have hδne : b.position - a.position ≠ 0 := by
    rw [ne_eq, vec_sub_eq_zero_iff]
    exact fun h => hpos h.symm
  have hdpos : (0 : ℝ) < max (Vec3.length (b.position - a.position))
      ((a.radius + b.radius) * 2) :=
    lt_of_lt_of_le (length_pos_of_ne_zero hδne) (le_max_left _ _)
  ext <;>
    (simp
     field_simp
     ring)

theorem updatePosition_radius (p : Bool) (dt : ℚ) (o : Object3D) (c : ℕ) :
    (updatePosition p dt o c).1.radius = o.radius := by
  unfold updatePosition
  split <;> rfl

theorem updatePosition_zero_dt (o : Object3D) (c : ℕ) :
    (updatePosition false 0 o c).1.position = o.position ∧
    (updatePosition false 0 o c).1.velocity = o.velocity := by
  have ht : ((min (0 : ℚ) MAX_TIMESTEP : ℚ) : ℝ) = 0 := by
    norm_num [MAX_TIMESTEP]
  unfold updatePosition
  split
  · exact ⟨rfl, rfl⟩
  · dsimp only
    rw [ht, vec_zero_smul, vec_add_zero, vec_zero_smul, vec_add_zero]
    exact ⟨rfl, rfl⟩

/-- Witness for C3: two resting free unit bodies ten units apart, over a
tick with dt = 0 (one substep, no collision). -/
theorem C3_momentum_conserved_witness :
    (freeBodyA.fixed = false ∧ freeBodyB.fixed = false ∧
     freeBodyA.mass ≠ 0 ∧ freeBodyB.mass ≠ 0 ∧
     freeBodyA.position ≠ freeBodyB.position ∧
     substepCount ((0 : ℚ) * 1) = 1 ∧
     pairNoCollision (updatePass false (substepDt ((0 : ℚ) * 1))
       (forcePass (accelReset [freeBodyA, freeBodyB])) 0).1) ∧
    momentum (tick false 1 0 ⟨[freeBodyA, freeBodyB], 0⟩).objects
      = momentum [freeBodyA, freeBodyB] := by
  have hma : freeBodyA.mass ≠ 0 := by norm_num [freeBodyA, mkObject]
  have hmb : freeBodyB.mass ≠ 0 := by norm_num [freeBodyB, mkObject]
  have hp : freeBodyA.position ≠ freeBodyB.position := by
    simp [freeBodyA, freeBodyB, mkObject, Vec3.mk.injEq]
  have hz : ((0 : ℚ) * 1) / MAX_TIMESTEP = 0 := by norm_num [MAX_TIMESTEP]
  have hone : substepCount ((0 : ℚ) * 1) = 1 := by
    unfold substepCount cppTrunc
    rw [hz, if_pos (le_refl (0 : ℚ)), Int.floor_zero]
    omega
  have hsd0 : substepDt ((0 : ℚ) * 1) = 0 := by
    unfold substepDt
    rw [hone]
    norm_num
  have h100 : Vec3.length ⟨10, 0, 0⟩ = 10 := by
    unfold Vec3.length Vec3.dot
    norm_num
    rw [show (100 : ℝ) = 10 ^ 2 by norm_num, Real.sqrt_sq (by norm_num : (0:ℝ) ≤ 10)]
  have hnc : pairNoCollision (updatePass false (substepDt ((0 : ℚ) * 1))
      (forcePass (accelReset [freeBodyA, freeBodyB])) 0).1 := by
    rw [show accelReset [freeBodyA, freeBodyB]
        = [{ freeBodyA with acceleration := 0 }, { freeBodyB with acceleration := 0 }]
      from rfl, forcePass_pair, hsd0, updatePass_pair]
    show CheckCollision _ _ = false
    rw [CheckCollision, decide_eq_false_iff_not]
    intro hle
    rw [(updatePosition_zero_dt _ _).1, (updatePosition_zero_dt _ _).1,
      calcGrav_position, calcGrav_position] at hle
    have hδ : ({ freeBodyB with acceleration := (0 : Vec3) }).position
        - ({ freeBodyA with acceleration := (0 : Vec3) }).position = ⟨10, 0, 0⟩ := by
      ext <;> simp [freeBodyA, freeBodyB, mkObject]
    rw [hδ, h100] at hle
    rw [updatePosition_radius, updatePosition_radius, calcGrav_radius,
      calcGrav_radius] at hle
    have hr1 : ({ freeBodyA with acceleration := (0 : Vec3) }).radius = 1 := by
      norm_num [freeBodyA, mkObject]
    have hr2 : ({ freeBodyB with acceleration := (0 : Vec3) }).radius = 1 := by
      norm_num [freeBodyB, mkObject]
    rw [hr1, hr2] at hle
    linarith
  exact ⟨⟨rfl, rfl, hma, hmb, hp, hone, hnc⟩,
    C3_momentum_conserved freeBodyA freeBodyB 1 0 0 rfl rfl hma hmb hp hone hnc⟩

end PhysicsEngine
